import Mathlib

/-!
# Verification of the opencode-tauri IPC broker core

Shallow embedding of the broker's core components, translated from the Rust
sources, together with theorems settling the frozen specification claims.

Components embedded here:
* the field-name codec generated by `client-core/build.rs`
  (`normalize_key` / `denormalize_key` / `normalize_json` / `denormalize_json`);
* the HTTP status classifier (`common/src/http_status.rs`);
* the auth-sync error taxonomy (`client-core/src/error/auth_sync.rs`);
* the redacted API key type (`common/src/redacted_key.rs`);
* the server-descriptor builder (`models/src/server_info/builder.rs`);
* process stop with signal tracing (`client-core/src/discovery/process.rs`);
* the auth-source probe (`client-core/src/auth_sync/oauth.rs`);
* app-config validation and the config actor
  (`client-core/src/config/mod.rs`, `client-core/src/ipc/config_state.rs`);
* backend HTTP client response handling (`client-core/src/opencode_client/mod.rs`);
* the per-connection IPC server state machine (`client-core/src/ipc/server.rs`).

Effectful boundaries (the OS process table, signal delivery, the file system,
the network) are modelled as explicit environment records passed to the
embedded functions; the control flow operating on those environments is
translated line by line from the Rust source.
-/

namespace OpencodeTauri

/-! ## Field-name codec (generated by `client-core/build.rs`)

`build.rs` reads `opencode_fields.toml` and generates two lookup tables,
`TO_SNAKE` (JavaScript name → snake_case name) and `TO_JS` (the reverse),
plus the four functions `normalize_key`, `denormalize_key`, `normalize_json`
and `denormalize_json`.  The mapping file itself is not part of the source
tree snapshot; its fifteen entries are reproduced here exactly as enumerated
by the repository's unit tests (`src/tests/field_normalizer.rs`), which list
all twelve acronym fields and all three override fields. -/

/-- The configured mapping (JavaScript key, snake_case key), from
`opencode_fields.toml` as enumerated by `src/tests/field_normalizer.rs`. -/
def fieldMappings : List (String × String) :=
  [ ("projectID", "project_id")
  , ("sessionID", "session_id")
  , ("messageID", "message_id")
  , ("providerID", "provider_id")
  , ("modelID", "model_id")
  , ("parentID", "parent_id")
  , ("partID", "part_id")
  , ("callID", "call_id")
  , ("requestID", "request_id")
  , ("snapshotID", "snapshot_id")
  , ("subtaskID", "subtask_id")
  , ("baseURL", "base_url")
  , ("enterpriseUrl", "enterprise_url")
  , ("experimentalOver200K", "experimental_over_200_k")
  , ("topP", "top_p")
  ]

/-- Association-list lookup, the embedding of a `HashMap::get` on the
generated static tables. -/
def lookupTable : List (String × String) → String → Option String
  | [], _ => none
  | (k, v) :: rest, key => if key = k then some v else lookupTable rest key

/-- The generated `TO_SNAKE` table as a lookup function. -/
def toSnake (key : String) : Option String :=
  lookupTable fieldMappings key

/-- The generated `TO_JS` table (reverse pairs) as a lookup function. -/
def toJs (key : String) : Option String :=
  lookupTable (fieldMappings.map (fun p => (p.2, p.1))) key

/-- `normalize_key`: the snake_case name if mapped, else the key unchanged. -/
def normalize_key (key : String) : String :=
  (toSnake key).getD key

/-- `denormalize_key`: the JavaScript name if mapped, else the key unchanged. -/
def denormalize_key (key : String) : String :=
  (toJs key).getD key

/-- JSON trees as processed by the codec (`serde_json::Value`).  Numbers are
carried opaquely as integers; the codec never inspects primitives. -/
inductive Json where
  | null : Json
  | bool (b : Bool) : Json
  | num (n : Int) : Json
  | str (s : String) : Json
  | arr (items : List Json) : Json
  | obj (fields : List (String × Json)) : Json

mutual

/-- `normalize_json`: rewrite object keys via `normalize_key` at every depth,
recursing into arrays; primitives pass through. -/
def normalize_json : Json → Json
  | .obj fields => .obj (normalizeFields fields)
  | .arr items => .arr (normalizeList items)
  | other => other

/-- Recursion of `normalize_json` into an array. -/
def normalizeList : List Json → List Json
  | [] => []
  | v :: rest => normalize_json v :: normalizeList rest

/-- Recursion of `normalize_json` into an object's fields. -/
def normalizeFields : List (String × Json) → List (String × Json)
  | [] => []
  | (k, v) :: rest => (normalize_key k, normalize_json v) :: normalizeFields rest

end

mutual

/-- `denormalize_json`: rewrite object keys via `denormalize_key` at every
depth, recursing into arrays; primitives pass through. -/
def denormalize_json : Json → Json
  | .obj fields => .obj (denormalizeFields fields)
  | .arr items => .arr (denormalizeList items)
  | other => other

/-- Recursion of `denormalize_json` into an array. -/
def denormalizeList : List Json → List Json
  | [] => []
  | v :: rest => denormalize_json v :: denormalizeList rest

/-- Recursion of `denormalize_json` into an object's fields. -/
def denormalizeFields : List (String × Json) → List (String × Json)
  | [] => []
  | (k, v) :: rest => (denormalize_key k, denormalize_json v) :: denormalizeFields rest

end

/-- A key is on the JavaScript side of the mapping. -/
def isJsKey (k : String) : Bool := (toSnake k).isSome

/-- A key is on the snake_case side of the mapping. -/
def isSnakeKey (k : String) : Bool := (toJs k).isSome

mutual

/-- The spec's side condition on a JSON value: at every depth, an object's
keys are either all JavaScript-side keys of the mapping or all outside the
mapping (on neither side). -/
def goodJson : Json → Bool
  | .obj fields =>
      (fields.all (fun p => isJsKey p.1)
        || fields.all (fun p => !isJsKey p.1 && !isSnakeKey p.1))
      && goodFields fields
  | .arr items => goodList items
  | _ => true

/-- `goodJson` over an array's items. -/
def goodList : List Json → Bool
  | [] => true
  | v :: rest => goodJson v && goodList rest

/-- `goodJson` over an object's field values. -/
def goodFields : List (String × Json) → Bool
  | [] => true
  | (_, v) :: rest => goodJson v && goodFields rest

end

/-- A successful lookup comes from a pair of the table. -/
theorem lookupTable_mem {l : List (String × String)} {key v : String}
    (h : lookupTable l key = some v) : (key, v) ∈ l := by
  induction l with
  | nil => simp [lookupTable] at h
  | cons p rest ih =>
      obtain ⟨k, w⟩ := p
      by_cases hk : key = k
      · subst hk
        simp [lookupTable] at h
        subst h
        exact List.mem_cons_self _ _
      · simp [lookupTable, hk] at h
        exact List.mem_cons_of_mem _ (ih h)

/-- Every pair of the mapping is inverted by the reverse table. -/
theorem toJs_of_pair : ∀ p ∈ fieldMappings, toJs p.2 = some p.1 := by decide

/-- Keys that are either JavaScript-side keys of the mapping or outside the
mapping entirely are restored by `denormalize_key` after `normalize_key`. -/
theorem key_roundtrip (k : String)
    (h : isJsKey k = true ∨ (isJsKey k = false ∧ isSnakeKey k = false)) :
    denormalize_key (normalize_key k) = k := by
  rcases h with hjs | ⟨hjs, hsnake⟩
  · unfold isJsKey at hjs
    obtain ⟨v, hv⟩ := Option.isSome_iff_exists.mp hjs
    have hmem : (k, v) ∈ fieldMappings := lookupTable_mem hv
    have hrev := toJs_of_pair (k, v) hmem
    simp [normalize_key, denormalize_key, hv, hrev]
  · unfold isJsKey at hjs
    unfold isSnakeKey at hsnake
    have h1 : toSnake k = none := by
      cases hx : toSnake k <;> simp [hx] at hjs ⊢
    have h2 : toJs k = none := by
      cases hx : toJs k <;> simp [hx] at hsnake ⊢
    simp [normalize_key, denormalize_key, h1, h2]

mutual

/-- Round trip of the JSON codec under the spec's side condition. -/
theorem denorm_norm_json (v : Json) (h : goodJson v = true) :
    denormalize_json (normalize_json v) = v := by
  match v with
  | .null => rfl
  | .bool b => rfl
  | .num n => rfl
  | .str s => rfl
  | .arr items =>
      have h' : goodList items = true := by simpa [goodJson] using h
      simp only [normalize_json, denormalize_json]
      rw [denorm_norm_list items h']
  | .obj fields =>
      have h' := h
      simp only [goodJson, Bool.and_eq_true, Bool.or_eq_true] at h'
      obtain ⟨hkeys, hvals⟩ := h'
      have hk : ∀ p ∈ fields, denormalize_key (normalize_key p.1) = p.1 := by
        intro p hp
        rcases hkeys with hall | hall
        · exact key_roundtrip p.1 (Or.inl (by
            have := List.all_eq_true.mp hall p hp
            simpa using this))
        · have := List.all_eq_true.mp hall p hp
          simp only [Bool.and_eq_true, Bool.not_eq_true'] at this
          exact key_roundtrip p.1 (Or.inr this)
      simp only [normalize_json, denormalize_json]
      rw [denorm_norm_fields fields hk hvals]

/-- Round trip of the JSON codec over an array's items. -/
theorem denorm_norm_list (items : List Json) (h : goodList items = true) :
    denormalizeList (normalizeList items) = items := by
  match items with
  | [] => rfl
  | v :: rest =>
      have h' := h
      simp only [goodList, Bool.and_eq_true] at h'
      obtain ⟨hv, hrest⟩ := h'
      simp only [normalizeList, denormalizeList]
      rw [denorm_norm_json v hv, denorm_norm_list rest hrest]

/-- Round trip of the JSON codec over an object's fields, assuming every key
round-trips. -/
theorem denorm_norm_fields (fields : List (String × Json))
    (hk : ∀ p ∈ fields, denormalize_key (normalize_key p.1) = p.1)
    (hv : goodFields fields = true) :
    denormalizeFields (normalizeFields fields) = fields := by
  match fields with
  | [] => rfl
  | (k, v) :: rest =>
      have h' := hv
      simp only [goodFields, Bool.and_eq_true] at h'
      obtain ⟨hval, hrest⟩ := h'
      simp only [normalizeFields, denormalizeFields]
      rw [denorm_norm_json v hval]
      rw [hk (k, v) (List.mem_cons_self _ _)]
      rw [denorm_norm_fields rest (fun p hp => hk p (List.mem_cons_of_mem _ hp)) hrest]

end

/-- C5 counterexample input: the JavaScript-side key `projectID` of the
configured mapping. -/
def c5Key : String := "projectID"

/-- C5: the claim as stated is false at the mapping key `projectID`:
`denormalize_key` leaves a JavaScript-side key unchanged (it is not in the
reverse table), so `normalize_key (denormalize_key "projectID")` is
`"project_id"`, not `"projectID"`. -/
theorem c5_key_roundtrip_counterexample :
    c5Key ∈ fieldMappings.map Prod.fst ∧
      normalize_key (denormalize_key c5Key) ≠ c5Key := by decide

/-- C5 (amended): for every pair `(kJs, kSnake)` of the configured mapping,
`denormalize_key (normalize_key kJs) = kJs` and
`normalize_key (denormalize_key kSnake) = kSnake`; and for every JSON value
whose object keys at every depth are either all JavaScript-side keys of the
mapping or all outside the mapping (on neither side),
`denormalize_json (normalize_json v) = v`. -/
theorem c5_codec_bijection :
    (∀ p ∈ fieldMappings,
        denormalize_key (normalize_key p.1) = p.1 ∧
        normalize_key (denormalize_key p.2) = p.2) ∧
    (∀ v : Json, goodJson v = true → denormalize_json (normalize_json v) = v) :=
  ⟨by decide, fun v h => denorm_norm_json v h⟩

/-- Witness for the amended C5 at concrete inputs: the mapping pair
`("projectID", "project_id")` and the JSON object
`{"projectID": "p", "sessionID": "s"}`. -/
theorem c5_codec_bijection_witness :
    denormalize_key (normalize_key "projectID") = "projectID" ∧
      normalize_key (denormalize_key "project_id") = "project_id" ∧
      denormalize_json (normalize_json
        (Json.obj [("projectID", Json.str "p"), ("sessionID", Json.str "s")])) =
        Json.obj [("projectID", Json.str "p"), ("sessionID", Json.str "s")] := by
  refine ⟨?_, ?_, ?_⟩
  · exact (c5_codec_bijection.1 ("projectID", "project_id") (by decide)).1
  · exact (c5_codec_bijection.1 ("projectID", "project_id") (by decide)).2
  · exact c5_codec_bijection.2 _ (by decide)

/-! ## HTTP status classifier (`common/src/http_status.rs`) -/

/-- `HttpStatusCode(pub u16)`. -/
structure HttpStatusCode where
  code : Nat
  deriving DecidableEq

namespace HttpStatusCode

/-- `is_client_error`: `(400..500).contains(&self.0)`. -/
def is_client_error (s : HttpStatusCode) : Bool :=
  400 ≤ s.code && s.code < 500

/-- `is_server_error`: `(500..600).contains(&self.0)`. -/
def is_server_error (s : HttpStatusCode) : Bool :=
  500 ≤ s.code && s.code < 600

/-- `is_retryable`: `matches!(self.0, 502 | 503 | 504 | 429)`. -/
def is_retryable (s : HttpStatusCode) : Bool :=
  s.code = 502 || s.code = 503 || s.code = 504 || s.code = 429

end HttpStatusCode

/-! ## Error locations (`models/src/error/error_location.rs`)

A `(file, line, column)` triple captured at each error constructor's call
site.  The values do not influence any control flow; a fixed placeholder
stands in for the compiler-captured location. -/

/-- `ErrorLocation { file, line, column }`. -/
structure ErrorLocation where
  file : String
  line : Nat
  column : Nat
  deriving DecidableEq

/-- Stand-in for `ErrorLocation::from(Location::caller())`. -/
def callerLocation : ErrorLocation := ⟨"src", 0, 0⟩

/-! ## Auth-sync error taxonomy (`client-core/src/error/auth_sync.rs`) -/

/-- `KeyValidationFailure`. -/
inductive KeyValidationFailure where
  | empty
  | tooShort (min actual : Nat)
  | tooLong (max actual : Nat)
  | invalidPrefix (expected actual : String)
  | placeholderDetected (pattern : String)
  | invalidCharacters
  deriving DecidableEq

/-- `AuthSyncError`, with every variant's fields. -/
inductive AuthSyncError where
  | envLoad (message : String) (location : ErrorLocation)
  | providerSync (provider message : String) (statusCode : HttpStatusCode)
      (location : ErrorLocation)
  | network (provider message : String) (isTimeout isConnection : Bool)
      (location : ErrorLocation)
  | cancelled (location : ErrorLocation)
  | noServer (location : ErrorLocation)
  | oauthCheck (provider message : String) (location : ErrorLocation)
  | authPathDetection (message : String) (location : ErrorLocation)
  | keyValidation (provider : String) (reason : KeyValidationFailure)
      (location : ErrorLocation)
  | globalTimeout (timeoutSecs : Nat) (location : ErrorLocation)
  deriving DecidableEq

namespace AuthSyncError

/-- `AuthSyncError::is_retryable`, translated variant by variant. -/
def is_retryable : AuthSyncError → Bool
  | .network _ _ isTimeout isConnection _ => isTimeout || isConnection
  | .providerSync _ _ statusCode _ => statusCode.is_retryable
  | .cancelled _ => false
  | .noServer _ => false
  | .envLoad _ _ => false
  | .oauthCheck _ _ _ => false
  | .authPathDetection _ _ => false
  | .keyValidation _ _ _ => false
  | .globalTimeout _ _ => false

end AuthSyncError

/-- The retryability predicate exactly as claim C6 words it: a Network error
with `is_timeout` or `is_connection` set, or an HTTP-status-carrying error
whose status code is one of 429, 502, 503, 504. -/
def claimedRetryable : AuthSyncError → Prop
  | .network _ _ isTimeout isConnection _ => isTimeout = true ∨ isConnection = true
  | .providerSync _ _ statusCode _ =>
      statusCode.code = 429 ∨ statusCode.code = 502 ∨
      statusCode.code = 503 ∨ statusCode.code = 504
  | _ => False

/-- C6: for every `AuthSyncError` value `e`, `e.is_retryable()` returns true
iff `e` is a Network error with `is_timeout` or `is_connection` set, or an
HTTP-status-carrying (`ProviderSync`) error whose status code is in
{429, 502, 503, 504}; every other variant yields false. -/
theorem c6_is_retryable_characterisation (e : AuthSyncError) :
    e.is_retryable = true ↔ claimedRetryable e := by
  cases e with
  | network p m t c l =>
      simp [AuthSyncError.is_retryable, claimedRetryable]
  | providerSync p m s l =>
      simp [AuthSyncError.is_retryable, claimedRetryable,
        HttpStatusCode.is_retryable]
      tauto
  | envLoad m l => simp [AuthSyncError.is_retryable, claimedRetryable]
  | cancelled l => simp [AuthSyncError.is_retryable, claimedRetryable]
  | noServer l => simp [AuthSyncError.is_retryable, claimedRetryable]
  | oauthCheck p m l => simp [AuthSyncError.is_retryable, claimedRetryable]
  | authPathDetection m l => simp [AuthSyncError.is_retryable, claimedRetryable]
  | keyValidation p r l => simp [AuthSyncError.is_retryable, claimedRetryable]
  | globalTimeout t l => simp [AuthSyncError.is_retryable, claimedRetryable]

/-! ## Redacted API key (`common/src/redacted_key.rs`) -/

/-- `RedactedApiKey { inner: String }`. -/
structure RedactedApiKey where
  inner : String

namespace RedactedApiKey

/-- `as_str`. -/
def as_str (k : RedactedApiKey) : String := k.inner

/-- The `fmt::Debug` implementation:
`write!(f, "RedactedApiKey([REDACTED])")`. -/
def debugFmt (_ : RedactedApiKey) : String := "RedactedApiKey([REDACTED])"

/-- The `fmt::Display` implementation: `write!(f, "[REDACTED API KEY]")`. -/
def displayFmt (_ : RedactedApiKey) : String := "[REDACTED API KEY]"

/-- Redaction error raised by the `Serialize` implementation
(`common/src/error/redact_error.rs`). -/
structure RedactError where
  message : String
  location : ErrorLocation
  deriving DecidableEq

/-- The `serde::Serialize` implementation: always fails with a serialization
error, producing no output. -/
def serialize (_ : RedactedApiKey) : Except RedactError String :=
  .error ⟨"RedactedApiKey cannot be serialized - use as_str() explicitly",
    callerLocation⟩

end RedactedApiKey

/-- `needle` occurs as a contiguous substring of `hay`. -/
def substrOf (needle hay : String) : Prop :=
  needle.toList <:+: hay.toList

instance (needle hay : String) : Decidable (substrOf needle hay) := by
  unfold substrOf
  infer_instance

/-- C8 counterexample: for the secret `s = "REDACTED API KEY"`, the Display
output of `Redacted(s)` contains the substring `"REDACTED API KEY"` of `s`
itself, of length 16 ≥ 4 — so "containing no substring of s of length ≥ 4"
fails as universally stated, even though the output is a constant. -/
theorem c8_redaction_counterexample :
    substrOf "REDACTED API KEY" "REDACTED API KEY" ∧
      ("REDACTED API KEY" : String).length ≥ 4 ∧
      RedactedApiKey.displayFmt ⟨"REDACTED API KEY"⟩ = "[REDACTED API KEY]" ∧
      substrOf "REDACTED API KEY"
        (RedactedApiKey.displayFmt ⟨"REDACTED API KEY"⟩) := by
  refine ⟨?_, by decide, rfl, ?_⟩
  · exact List.infix_refl _
  · exact ⟨['['], [']'], rfl⟩

/-- C8 (amended): Debug and Display formatting of `Redacted(s)` produce fixed
strings independent of `s`, and every serialization attempt fails with a
serialization error rather than producing output; consequently a substring of
`s` of length ≥ 4 appears in the formatted output only if `s` shares it with
the fixed literals themselves. -/
theorem c8_redaction (s : String) :
    RedactedApiKey.debugFmt ⟨s⟩ = "RedactedApiKey([REDACTED])" ∧
    RedactedApiKey.displayFmt ⟨s⟩ = "[REDACTED API KEY]" ∧
    RedactedApiKey.serialize ⟨s⟩ =
      .error ⟨"RedactedApiKey cannot be serialized - use as_str() explicitly",
        callerLocation⟩ ∧
    (∀ sub : String, substrOf sub s → sub.length ≥ 4 →
      ¬ substrOf sub "RedactedApiKey([REDACTED])" →
      ¬ substrOf sub (RedactedApiKey.debugFmt ⟨s⟩)) := by
  refine ⟨rfl, rfl, rfl, ?_⟩
  intro sub _ _ hnot hin
  exact hnot hin

/-- Witness for the amended C8 at the concrete secret `"sk-secret0123"` and
its substring `"secret"`. -/
theorem c8_redaction_witness :
    RedactedApiKey.displayFmt ⟨"sk-secret0123"⟩ = "[REDACTED API KEY]" ∧
      ¬ substrOf "secret" (RedactedApiKey.debugFmt ⟨"sk-secret0123"⟩) := by
  have h := c8_redaction "sk-secret0123"
  refine ⟨h.2.1, ?_⟩
  exact h.2.2.2 "secret" (by decide) (by decide) (by decide)

/-! ## Server descriptor and builder (`models/src/server_info/builder.rs`)

In the Rust source `pid` is a `u32` and `port` a `u16`; they are modelled as
naturals, with the type bounds (`pid < 2^32`, `port < 2^16`) carried as
hypotheses where a claim needs them. -/

/-- `ServerInfo { pid, port, base_url, name, command, owned }` (the `u16`
port is widened to `u32` by `build()`; both sides are naturals here). -/
structure ServerInfo where
  pid : Nat
  port : Nat
  base_url : String
  name : String
  command : String
  owned : Bool
  deriving DecidableEq

/-- `ModelError::Validation { message, location }` (the only variant
`build()` produces). -/
structure ModelError where
  message : String
  location : ErrorLocation
  deriving DecidableEq

/-- `ServerInfoBuilder` with its six optional fields. -/
structure ServerInfoBuilder where
  pid : Option Nat := none
  port : Option Nat := none
  base_url : Option String := none
  name : Option String := none
  command : Option String := none
  owned : Option Bool := none

/-- Character-list model of `str::starts_with` (used by the builder's base
URL check and the config URL check). -/
def strStartsWith (s pre : String) : Bool :=
  pre.toList.isPrefixOf s.toList

/-- `strStartsWith` holds for any literal prefix of a concatenation. -/
theorem strStartsWith_append (pre rest : String) :
    strStartsWith (pre ++ rest) pre = true := by
  unfold strStartsWith
  rw [List.isPrefixOf_iff_prefix]
  show pre.data <+: (pre ++ rest).data
  rw [String.data_append]
  exact List.prefix_append _ _

namespace ServerInfoBuilder

/-- Shorthand for a Validation error, as `build()` constructs them. -/
def validationError (message : String) : ModelError :=
  ⟨message, callerLocation⟩

/-- `ServerInfoBuilder::build`, check for check in source order: pid present,
pid non-zero, port present, base URL present, base URL non-empty, base URL
`http(s)://` prefix, name present, name non-empty, command present, command
non-empty, owned present.  Each `?`-style early return of the Rust source is
one error arm. -/
def build (b : ServerInfoBuilder) : Except ModelError ServerInfo :=
  match b.pid with
  | none => .error (validationError "PID is required")
  | some pid =>
    if pid = 0 then .error (validationError "PID must be non-zero")
    else match b.port with
    | none => .error (validationError "Port is required")
    | some port =>
      match b.base_url with
      | none => .error (validationError "Base URL is required")
      | some base_url =>
        if base_url.isEmpty then
          .error (validationError "Base URL cannot be empty")
        else if !(strStartsWith base_url "http://"
            || strStartsWith base_url "https://") then
          .error (validationError ("Invalid base URL format: " ++ base_url))
        else match b.name with
        | none => .error (validationError "Server name is required")
        | some name =>
          if name.isEmpty then
            .error (validationError "Server name cannot be empty")
          else match b.command with
          | none => .error (validationError "Command is required")
          | some command =>
            if command.isEmpty then
              .error (validationError "Command cannot be empty")
            else match b.owned with
            | none => .error (validationError "Owned is required")
            | some owned => .ok ⟨pid, port, base_url, name, command, owned⟩

end ServerInfoBuilder

/-- The fields validated by the builder, listed in the order the claim gives
them. -/
inductive BuilderField where
  | pid | port | baseUrl | name | command | owned
  deriving DecidableEq

/-- The claimed validation order. -/
def checkOrder : List BuilderField :=
  [.pid, .port, .baseUrl, .name, .command, .owned]

/-- Whether a builder passes the validation check for one field, written from
the claim's words: pid present and non-zero; port present; base URL present,
non-empty and `http(s)://`-prefixed; name present and non-empty; command
present and non-empty; owned present. -/
def checkPasses (b : ServerInfoBuilder) : BuilderField → Bool
  | .pid => b.pid.any (fun p => p != 0)
  | .port => b.port.isSome
  | .baseUrl => b.base_url.any (fun u =>
      !u.isEmpty && (strStartsWith u "http://" || strStartsWith u "https://"))
  | .name => b.name.any (fun n => !n.isEmpty)
  | .command => b.command.any (fun c => !c.isEmpty)
  | .owned => b.owned.isSome

/-- The first failing check in the claimed order; `none` when all pass. -/
def firstFailingField (b : ServerInfoBuilder) : Option BuilderField :=
  checkOrder.find? (fun f => !checkPasses b f)

/-- The field a validation error message names (the "Invalid base URL
format: …" message is recognised by its prefix; every other message is one
of the builder's fixed strings). -/
def fieldNamedBy (message : String) : Option BuilderField :=
  if strStartsWith message "Invalid base URL format: " then some .baseUrl
  else if message = "PID is required" ∨ message = "PID must be non-zero" then
    some .pid
  else if message = "Port is required" then some .port
  else if message = "Base URL is required"
      ∨ message = "Base URL cannot be empty" then
    some .baseUrl
  else if message = "Server name is required"
      ∨ message = "Server name cannot be empty" then
    some .name
  else if message = "Command is required"
      ∨ message = "Command cannot be empty" then
    some .command
  else if message = "Owned is required" then some .owned
  else none

instance {ε α : Type} [DecidableEq ε] [DecidableEq α] :
    DecidableEq (Except ε α) := fun x y =>
  match x, y with
  | .ok a, .ok b =>
      if h : a = b then .isTrue (by rw [h]) else .isFalse (by simp [h])
  | .error a, .error b =>
      if h : a = b then .isTrue (by rw [h]) else .isFalse (by simp [h])
  | .ok _, .error _ => .isFalse (by simp)
  | .error _, .ok _ => .isFalse (by simp)

/-- C3 counterexample input: a fully populated builder whose port is `0`
(a legal `u16`). -/
def c3Builder : ServerInfoBuilder :=
  { pid := some 7, port := some 0, base_url := some "http://127.0.0.1:0",
    name := some "opencode", command := some "opencode serve",
    owned := some true }

/-- C3: the claim as stated is false: `build()` has no positivity check on
the port, so the concrete input with port `0` builds successfully and the
resulting descriptor violates `port ∈ [1, 65535]`. -/
theorem c3_port_zero_counterexample :
    ServerInfoBuilder.build c3Builder =
      .ok ⟨7, 0, "http://127.0.0.1:0", "opencode", "opencode serve", true⟩ ∧
    ¬ (1 ≤ (ServerInfo.port
        ⟨7, 0, "http://127.0.0.1:0", "opencode", "opencode serve", true⟩)) := by
  constructor
  · decide
  · decide

/-- C3 (amended): whenever `build()` returns `Ok`, the descriptor satisfies
`pid > 0`, `port ≤ 65535` (any `u16` including `0` — the claimed lower bound
`1 ≤ port` does not hold), base URL starting with `http://` or `https://`,
and non-empty name and command; and whenever it returns a Validation error,
that error names exactly the first field failing in the claimed order pid,
port, base URL, name, command, owned. -/
theorem c3_build_checks (b : ServerInfoBuilder)
    (hport : ∀ p, b.port = some p → p ≤ 65535) :
    (∀ s, b.build = .ok s →
      0 < s.pid ∧ s.port ≤ 65535 ∧
      (strStartsWith s.base_url "http://"
        || strStartsWith s.base_url "https://") = true ∧
      s.name.isEmpty = false ∧ s.command.isEmpty = false) ∧
    (∀ e, b.build = .error e → fieldNamedBy e.message = firstFailingField b) := by
  rcases hp : b.pid with _ | pid
  · refine ⟨fun s hs => ?_, fun e he => ?_⟩
    · simp [ServerInfoBuilder.build, hp] at hs
    · simp [ServerInfoBuilder.build, hp, ServerInfoBuilder.validationError] at he
      subst he
      simp only [firstFailingField, checkOrder, checkPasses, hp, List.find?,
        Option.any]
      rfl
  · by_cases hpz : pid = 0
    · subst hpz
      refine ⟨fun s hs => ?_, fun e he => ?_⟩
      · simp [ServerInfoBuilder.build, hp] at hs
      · simp [ServerInfoBuilder.build, hp, ServerInfoBuilder.validationError] at he
        subst he
        simp only [firstFailingField, checkOrder, checkPasses, hp, List.find?,
          Option.any]
        rfl
    · have hpz' : (pid != 0) = true := by simpa using hpz
      rcases hpo : b.port with _ | port
      · refine ⟨fun s hs => ?_, fun e he => ?_⟩
        · simp [ServerInfoBuilder.build, hp, hpz, hpo] at hs
        · simp [ServerInfoBuilder.build, hp, hpz, hpo,
            ServerInfoBuilder.validationError] at he
          subst he
          simp only [firstFailingField, checkOrder, checkPasses, hp, hpo,
            List.find?, Option.any, hpz']
          rfl
      · rcases hbu : b.base_url with _ | u
        · refine ⟨fun s hs => ?_, fun e he => ?_⟩
          · simp [ServerInfoBuilder.build, hp, hpz, hpo, hbu] at hs
          · simp [ServerInfoBuilder.build, hp, hpz, hpo, hbu,
              ServerInfoBuilder.validationError] at he
            subst he
            simp only [firstFailingField, checkOrder, checkPasses, hp, hpo,
              hbu, List.find?, Option.any, hpz']
            rfl
        · by_cases hue : u.isEmpty = true
          · refine ⟨fun s hs => ?_, fun e he => ?_⟩
            · simp [ServerInfoBuilder.build, hp, hpz, hpo, hbu, hue] at hs
            · simp [ServerInfoBuilder.build, hp, hpz, hpo, hbu, hue,
                ServerInfoBuilder.validationError] at he
              subst he
              simp only [firstFailingField, checkOrder, checkPasses, hp, hpo,
                hbu, List.find?, Option.any, hpz', hue]
              rfl
          · have hue' : u.isEmpty = false := by simpa using hue
            by_cases hupre : (strStartsWith u "http://"
                || strStartsWith u "https://") = true
            · rcases hn : b.name with _ | n
              · refine ⟨fun s hs => ?_, fun e he => ?_⟩
                · simp [ServerInfoBuilder.build, hp, hpz, hpo, hbu, hue,
                    hupre, hn] at hs
                · simp [ServerInfoBuilder.build, hp, hpz, hpo, hbu, hue,
                    hupre, hn, ServerInfoBuilder.validationError] at he
                  subst he
                  simp only [firstFailingField, checkOrder, checkPasses, hp,
                    hpo, hbu, hn, List.find?, Option.any, hpz', hue', hupre]
                  rfl
              · by_cases hne : n.isEmpty = true
                · refine ⟨fun s hs => ?_, fun e he => ?_⟩
                  · simp [ServerInfoBuilder.build, hp, hpz, hpo, hbu, hue,
                      hupre, hn, hne] at hs
                  · simp [ServerInfoBuilder.build, hp, hpz, hpo, hbu, hue,
                      hupre, hn, hne, ServerInfoBuilder.validationError] at he
                    subst he
                    simp only [firstFailingField, checkOrder, checkPasses, hp,
                      hpo, hbu, hn, List.find?, Option.any, hpz', hue', hupre,
                      hne]
                    rfl
                · have hne' : n.isEmpty = false := by simpa using hne
                  rcases hc : b.command with _ | c
                  · refine ⟨fun s hs => ?_, fun e he => ?_⟩
                    · simp [ServerInfoBuilder.build, hp, hpz, hpo, hbu, hue,
                        hupre, hn, hne, hc] at hs
                    · simp [ServerInfoBuilder.build, hp, hpz, hpo, hbu, hue,
                        hupre, hn, hne, hc,
                        ServerInfoBuilder.validationError] at he
                      subst he
                      simp only [firstFailingField, checkOrder, checkPasses,
                        hp, hpo, hbu, hn, hc, List.find?, Option.any, hpz',
                        hue', hupre, hne']
                      rfl
                  · by_cases hce : c.isEmpty = true
                    · refine ⟨fun s hs => ?_, fun e he => ?_⟩
                      · simp [ServerInfoBuilder.build, hp, hpz, hpo, hbu, hue,
                          hupre, hn, hne, hc, hce] at hs
                      · simp [ServerInfoBuilder.build, hp, hpz, hpo, hbu, hue,
                          hupre, hn, hne, hc, hce,
                          ServerInfoBuilder.validationError] at he
                        subst he
                        simp only [firstFailingField, checkOrder, checkPasses,
                          hp, hpo, hbu, hn, hc, List.find?, Option.any, hpz',
                          hue', hupre, hne', hce]
                        rfl
                    · have hce' : c.isEmpty = false := by simpa using hce
                      rcases ho : b.owned with _ | o
                      · refine ⟨fun s hs => ?_, fun e he => ?_⟩
                        · simp [ServerInfoBuilder.build, hp, hpz, hpo, hbu,
                            hue, hupre, hn, hne, hc, hce, ho] at hs
                        · simp [ServerInfoBuilder.build, hp, hpz, hpo, hbu,
                            hue, hupre, hn, hne, hc, hce, ho,
                            ServerInfoBuilder.validationError] at he
                          subst he
                          simp only [firstFailingField, checkOrder,
                            checkPasses, hp, hpo, hbu, hn, hc, ho, List.find?,
                            Option.any, hpz', hue', hupre, hne', hce']
                          rfl
                      · refine ⟨fun s hs => ?_, fun e he => ?_⟩
                        · simp [ServerInfoBuilder.build, hp, hpz, hpo, hbu,
                            hue, hupre, hn, hne, hc, hce, ho] at hs
                          subst hs
                          exact ⟨Nat.pos_of_ne_zero hpz, hport port hpo,
                            hupre, hne', hce'⟩
                        · simp [ServerInfoBuilder.build, hp, hpz, hpo, hbu,
                            hue, hupre, hn, hne, hc, hce, ho] at he
            · refine ⟨fun s hs => ?_, fun e he => ?_⟩
              · simp [ServerInfoBuilder.build, hp, hpz, hpo, hbu, hue,
                  hupre] at hs
              · have hupre' : (strStartsWith u "http://"
                    || strStartsWith u "https://") = false := by
                  simpa using hupre
                simp [ServerInfoBuilder.build, hp, hpz, hpo, hbu, hue, hupre',
                  ServerInfoBuilder.validationError] at he
                subst he
                simp only [fieldNamedBy, strStartsWith_append, if_true,
                  firstFailingField, checkOrder, checkPasses, hp, hpo, hbu,
                  List.find?, Option.any, hpz', hue', hupre']
                rfl

/-- Witness for the amended C3 at a concrete valid builder and a concrete
failing builder (missing name, so the first failing check is the name). -/
theorem c3_build_checks_witness :
    (0 < (7:Nat) ∧ (4096:Nat) ≤ 65535 ∧
      (strStartsWith "http://127.0.0.1:4096" "http://"
        || strStartsWith "http://127.0.0.1:4096" "https://") = true ∧
      ("opencode" : String).isEmpty = false ∧
      ("opencode serve" : String).isEmpty = false) ∧
    fieldNamedBy "Server name is required" =
      firstFailingField
        { pid := some 7, port := some 4096,
          base_url := some "http://127.0.0.1:4096",
          name := none, command := some "opencode serve",
          owned := some true } := by
  constructor
  · exact (c3_build_checks
      { pid := some 7, port := some 4096,
        base_url := some "http://127.0.0.1:4096",
        name := some "opencode", command := some "opencode serve",
        owned := some true }
      (by intro p hp; cases hp; decide)).1
      ⟨7, 4096, "http://127.0.0.1:4096", "opencode", "opencode serve", true⟩
      (by decide)
  · exact (c3_build_checks
      { pid := some 7, port := some 4096,
        base_url := some "http://127.0.0.1:4096",
        name := none, command := some "opencode serve",
        owned := some true }
      (by intro p hp; cases hp; decide)).2
      (ServerInfoBuilder.validationError "Server name is required")
      (by decide)

/-! ## Process stop (`client-core/src/discovery/process.rs`, `stop_pid`)

`stop_pid` consults the OS process table (`with_process`), sends signals
through `sysinfo` (`kill_with(Signal::Term)`, falling back to `kill()`),
and polls for disappearance with exponential backoff bounded by 5 seconds.
The OS boundary is an explicit environment; the bounded backoff budget is a
fuel argument (number of sleeps the 5-second budget admits).  Every signal
the call sends is recorded in a trace, giving the "mock signal layer" the
spec itself proposes for checking pid-1 safety. -/

/-- A signal issued through the `sysinfo` process handle. -/
inductive SigEvent where
  | term (pid : Nat)
  | kill (pid : Nat)
  deriving DecidableEq

/-- The OS boundary of `stop_pid`. -/
structure ProcessEnv where
  /-- `with_process(pid, …)` finds the process in the process table. -/
  alive : Nat → Bool
  /-- `kill_with(Signal::Term)` returns `Some(_)` (platform supports it). -/
  termSupported : Bool
  /-- the `Some(sent)` value: SIGTERM delivery succeeded. -/
  termDelivers : Nat → Bool
  /-- `kill()` result: SIGKILL delivery succeeded. -/
  killDelivers : Nat → Bool
  /-- the process is still in the table at the i-th verification poll. -/
  aliveAtPoll : Nat → Nat → Bool

/-- The kill-verification loop: check for disappearance, then back off and
retry while the 5-second budget (`fuel` sleeps) lasts; `false` when the
budget is exhausted with the process still present. -/
def verifyGone (env : ProcessEnv) (pid : Nat) : Nat → Nat → Bool
  | i, 0 => !env.aliveAtPoll pid i
  | i, fuel + 1 =>
      if !env.aliveAtPoll pid i then true
      else verifyGone env pid (i + 1) fuel

/-- `stop_pid`, translated from the source: signal whatever process the
table reports (there is no pid-1 guard in the code), then verify
termination.  Returns the result together with the trace of signals sent. -/
def stop_pid (env : ProcessEnv) (pid : Nat) (fuel : Nat) :
    Bool × List SigEvent :=
  if env.alive pid then
    let (killed, events) :=
      if env.termSupported then (env.termDelivers pid, [SigEvent.term pid])
      else (env.killDelivers pid, [SigEvent.kill pid])
    if !killed then (false, events)
    else (verifyGone env pid 0 fuel, events)
  else (false, [])

/-- Environment of a production system: pid 1 (init) is always alive; signal
delivery succeeds (the broker running with sufficient privilege); the
process leaves the table after the signal. -/
def pid1RootEnv : ProcessEnv :=
  { alive := fun _ => true
  , termSupported := true
  , termDelivers := fun _ => true
  , killDelivers := fun _ => true
  , aliveAtPoll := fun _ _ => false }

/-- Environment of an unprivileged process: pid 1 is alive but signalling it
fails with EPERM (`kill_with` reports `Some(false)`). -/
def pid1EpermEnv : ProcessEnv :=
  { alive := fun _ => true
  , termSupported := true
  , termDelivers := fun _ => false
  , killDelivers := fun _ => false
  , aliveAtPoll := fun _ _ => true }

/-- C1: the code has no pid-1 guard.  With pid 1 alive in the process table
(always true on a running system): if SIGTERM delivery succeeds (privileged
broker) `stop_pid(1)` sends SIGTERM to pid 1 and returns `true`; even when
delivery fails (EPERM) the SIGTERM has still been issued.  Both outcomes
contradict "returns false and never issues a signal"; the repository's own
integration test
(`integration_tests/discovery/process.rs`,
`given_pid_1_when_stop_pid_called_then_refuses_and_returns_false`)
documents the intended safety check that the code does not implement. -/
theorem c1_stop_pid_pid1_sends_signal :
    stop_pid pid1RootEnv 1 5 = (true, [SigEvent.term 1]) ∧
    stop_pid pid1EpermEnv 1 5 = (false, [SigEvent.term 1]) := by
  constructor <;> rfl

/-! ## Auth-source probe (`client-core/src/auth_sync/oauth.rs`) -/

/-- `OAuthStatus`. -/
inductive OAuthStatus where
  | configured
  | apiKeyConfigured
  | wellKnownConfigured
  | notConfigured
  | unknown (reason : String)
  deriving DecidableEq

/-- `AuthInfo`, the tagged union stored per provider in `auth.json`. -/
inductive AuthInfo where
  | oauth (access refresh : String) (expires : Int)
  | apiKey (key : String)
  | wellKnown (key token : String)
  deriving DecidableEq

/-- `AuthInfo::to_oauth_status`. -/
def AuthInfo.to_oauth_status : AuthInfo → OAuthStatus
  | .oauth _ _ _ => .configured
  | .apiKey _ => .apiKeyConfigured
  | .wellKnown _ _ => .wellKnownConfigured

/-- One value of the parsed `auth.json` map, as seen by
`serde_json::from_value::<AuthInfo>`: either a decodable record or junk
that fails with a serde message. -/
inductive AuthValue where
  | valid (info : AuthInfo)
  | invalid (errMsg : String)

/-- `serde_json::from_value::<AuthInfo>` on one stored value. -/
def decodeAuthInfo : AuthValue → Except String AuthInfo
  | .valid info => .ok info
  | .invalid e => .error e

/-- Polymorphic association-list lookup (`HashMap::get` on the parsed
`auth.json` map). -/
def assocLookup {α : Type} : List (String × α) → String → Option α
  | [], _ => none
  | (k, v) :: rest, key => if key = k then some v else assocLookup rest key

/-- Outcome of `fs::read_to_string` on the auth file. -/
inductive ReadOutcome where
  | notFound
  | permissionDenied (msg : String)
  | otherError (msg : String)
  | ok (content : String)

/-- The file-system boundary of the auth-source probe. -/
structure AuthFsEnv where
  /-- `detect_opencode_paths()` succeeds. -/
  pathsOk : Bool
  /-- `paths.auth_file.exists()`. -/
  fileExists : Bool
  /-- `fs::read_to_string(&paths.auth_file)`. -/
  readFile : ReadOutcome
  /-- `serde_json::from_str::<HashMap<String, Value>>` on the content. -/
  parse : String → Except String (List (String × AuthValue))

/-- `check_oauth_status`, translated branch for branch from the source. -/
def check_oauth_status (env : AuthFsEnv) (provider : String) :
    Except AuthSyncError OAuthStatus :=
  if !env.pathsOk then
    .ok (.unknown "Cannot determine OpenCode data directory")
  else if !env.fileExists then
    .ok .notConfigured
  else match env.readFile with
    | .notFound => .ok .notConfigured
    | .permissionDenied msg => .ok (.unknown ("Permission denied: " ++ msg))
    | .otherError msg => .ok (.unknown ("Read error: " ++ msg))
    | .ok content =>
      match env.parse content with
      | .error e => .ok (.unknown ("Parse error: " ++ e))
      | .ok authData =>
        match assocLookup authData provider with
        | none => .ok .notConfigured
        | some v =>
          match decodeAuthInfo v with
          | .ok info => .ok info.to_oauth_status
          | .error e => .ok (.unknown ("Auth info parse error: " ++ e))

/-- `check_oauth_status_batch`: reads and parses the file once via
`read_to_string(…).ok().and_then(|c| from_str(c).ok())`; when that yields
`None` — file missing, unreadable **or unparsable** — every provider is
classified `NotConfigured` (the source comments this case "File missing or
invalid - all providers are NotConfigured"). -/
def check_oauth_status_batch (env : AuthFsEnv) (providers : List String) :
    List (String × OAuthStatus) :=
  if !env.pathsOk then
    providers.map (fun p =>
      (p, OAuthStatus.unknown "Cannot determine OpenCode data directory"))
  else
    match (match env.readFile with
      | .ok content => (env.parse content).toOption
      | _ => none) with
    | none => providers.map (fun p => (p, OAuthStatus.notConfigured))
    | some authData =>
      providers.map (fun p =>
        match assocLookup authData p with
        | none => (p, OAuthStatus.notConfigured)
        | some v =>
          match decodeAuthInfo v with
          | .ok info => (p, info.to_oauth_status)
          | .error _ => (p, OAuthStatus.unknown "Parse error"))

/-- The auth file exists but is unreadable (not a not-found race) or
unparsable. -/
def unreadableOrUnparsable (env : AuthFsEnv) : Bool :=
  match env.readFile with
  | .notFound => false
  | .permissionDenied _ => true
  | .otherError _ => true
  | .ok content => (env.parse content).toOption.isNone

/-- C4 counterexample environment: `auth.json` exists with unparsable
content. -/
def c4Env : AuthFsEnv :=
  { pathsOk := true
  , fileExists := true
  , readFile := .ok "not json"
  , parse := fun _ => .error "expected value at line 1 column 1" }

/-- C4: the claim as stated is false for the batch variant: with an existing
but unparsable `auth.json`, the single-provider query classifies the
provider `Unknown`, but the batch variant classifies it `NotConfigured`. -/
theorem c4_batch_counterexample :
    check_oauth_status c4Env "anthropic" =
      .ok (.unknown "Parse error: expected value at line 1 column 1") ∧
    check_oauth_status_batch c4Env ["anthropic"] =
      [("anthropic", OAuthStatus.notConfigured)] ∧
    (OAuthStatus.notConfigured ≠
      OAuthStatus.unknown "Parse error: expected value at line 1 column 1") := by
  refine ⟨rfl, rfl, by decide⟩

/-- C4 (amended): when `auth.json` exists but is unreadable or unparsable,
the single-provider query classifies every queried provider `Unknown` (and
returns no error), while the batch variant — which reads the file once and
collapses read and parse failures with `.ok()` — classifies every provider
`NotConfigured`. -/
theorem c4_auth_probe_unreadable (env : AuthFsEnv) (provider : String)
    (providers : List String)
    (hpaths : env.pathsOk = true) (hexists : env.fileExists = true)
    (hbad : unreadableOrUnparsable env = true) :
    (∃ reason, check_oauth_status env provider = .ok (.unknown reason)) ∧
    check_oauth_status_batch env providers =
      providers.map (fun p => (p, OAuthStatus.notConfigured)) := by
  unfold unreadableOrUnparsable at hbad
  constructor
  · unfold check_oauth_status
    rw [hpaths, hexists]
    cases hr : env.readFile with
    | notFound => rw [hr] at hbad; simp at hbad
    | permissionDenied msg => simp
    | otherError msg => simp
    | ok content =>
        rw [hr] at hbad
        simp at hbad
        cases hp : env.parse content with
        | error e => simp [hp, Except.toOption]
        | ok data => rw [hp] at hbad; simp [Except.toOption] at hbad
  · unfold check_oauth_status_batch
    rw [hpaths]
    cases hr : env.readFile with
    | notFound => rw [hr] at hbad; simp at hbad
    | permissionDenied msg => simp
    | otherError msg => simp
    | ok content =>
        rw [hr] at hbad
        simp at hbad
        cases hp : env.parse content with
        | error e => simp [hp, Except.toOption]
        | ok data => rw [hp] at hbad; simp [Except.toOption] at hbad

/-- C4 witness environment: `auth.json` exists but reading it is denied. -/
def c4WitnessEnv : AuthFsEnv :=
  { pathsOk := true
  , fileExists := true
  , readFile := .permissionDenied "os error 13"
  , parse := fun _ => .error "unreached" }

/-- Witness for the amended C4 at a concrete unreadable-file environment. -/
theorem c4_auth_probe_unreadable_witness :
    (∃ reason, check_oauth_status c4WitnessEnv "openai" =
      .ok (.unknown reason)) ∧
    check_oauth_status_batch c4WitnessEnv ["openai", "anthropic"] =
      [("openai", OAuthStatus.notConfigured),
       ("anthropic", OAuthStatus.notConfigured)] := by
  have h := c4_auth_probe_unreadable c4WitnessEnv "openai"
    ["openai", "anthropic"] rfl rfl rfl
  exact ⟨h.1, h.2⟩

/-! ## Application config (`client-core/src/config/mod.rs`) and the config
actor (`client-core/src/ipc/config_state.rs`)

`base_font_points` is an `f32` in the source; it is modelled as a rational,
which preserves the two comparisons `< 8.0` and `> 72.0` on every finite
value. -/

/-- `FontSizePreset`. -/
inductive FontSizePreset where
  | small | standard | large
  deriving DecidableEq

/-- `ChatDensity`. -/
inductive ChatDensity where
  | compact | normal | comfortable
  deriving DecidableEq

/-- `ServerConfig`. -/
structure ServerConfig where
  last_opencode_url : Option String
  auto_start : Bool
  directory_override : Option String
  deriving DecidableEq

/-- `UiPreferences`. -/
structure UiPreferences where
  font_size : FontSizePreset
  base_font_points : ℚ
  chat_density : ChatDensity
  deriving DecidableEq

/-- `AudioConfig`. -/
structure AudioConfig where
  push_to_talk_key : String
  whisper_model_path : Option String
  deriving DecidableEq

/-- `AppConfig`. -/
structure AppConfig where
  version : Nat
  server : ServerConfig
  ui : UiPreferences
  audio : AudioConfig
  deriving DecidableEq

/-- `CONFIG_VERSION`. -/
def CONFIG_VERSION : Nat := 1

/-- `AppConfig::validate`, check for check from the source: version in
`1..=CONFIG_VERSION`, font points in `[8.0, 72.0]`, then — only when a URL
is set — non-empty and `http(s)://`-prefixed. -/
def AppConfig.validate (c : AppConfig) : Except String Unit :=
  if c.version = 0 ∨ c.version > CONFIG_VERSION then
    .error ("Invalid version: " ++ toString c.version ++ " (expected 1-"
      ++ toString CONFIG_VERSION ++ ")")
  else if c.ui.base_font_points < 8 ∨ c.ui.base_font_points > 72 then
    .error ("Invalid font size: " ++ toString c.ui.base_font_points
      ++ " (must be 8.0-72.0)")
  else match c.server.last_opencode_url with
    | none => .ok ()
    | some url =>
      if url.isEmpty then
        .error "last_opencode_url cannot be empty string"
      else if !(strStartsWith url "http://" || strStartsWith url "https://") then
        .error ("Invalid URL format: " ++ url)
      else .ok ()

/-- `ConfigCommand`. -/
inductive ConfigCommand where
  | updateAppConfig (newConfig : AppConfig)

/-- Result of processing one command in `config_actor`: the in-memory config
afterwards, and whether a disk write was attempted. -/
structure ConfigActorResult where
  memory : AppConfig
  diskWriteAttempted : Bool
  deriving DecidableEq

/-- One iteration of the `config_actor` loop: validate first — on failure
log and `continue` (drop the command); on success write memory, then attempt
to persist. -/
def config_actor_step (mem : AppConfig) (cmd : ConfigCommand) :
    ConfigActorResult :=
  match cmd with
  | .updateAppConfig newConfig =>
    match newConfig.validate with
    | .error _ => ⟨mem, false⟩
    | .ok _ => ⟨newConfig, true⟩

/-- C9: for every `UpdateAppConfig` command whose new config fails
validation, the config actor drops the command: the in-memory config is
unchanged and no disk write is attempted. -/
theorem c9_config_actor_drops_invalid (mem newConfig : AppConfig) (e : String)
    (h : newConfig.validate = .error e) :
    config_actor_step mem (.updateAppConfig newConfig) = ⟨mem, false⟩ := by
  simp [config_actor_step, h]

/-- A concrete invalid config: version `0` (outside `1..=CURRENT`). -/
def c9BadConfig : AppConfig :=
  { version := 0
  , server := ⟨none, true, none⟩
  , ui := ⟨.standard, 14, .normal⟩
  , audio := ⟨"AltRight", none⟩ }

/-- A concrete in-memory config (the defaults). -/
def c9Memory : AppConfig :=
  { version := 1
  , server := ⟨none, true, none⟩
  , ui := ⟨.standard, 14, .normal⟩
  , audio := ⟨"AltRight", none⟩ }

/-- Witness for C9 at a concrete invalid command. -/
theorem c9_config_actor_drops_invalid_witness :
    config_actor_step c9Memory (.updateAppConfig c9BadConfig) =
      ⟨c9Memory, false⟩ :=
  c9_config_actor_drops_invalid c9Memory c9BadConfig
    ("Invalid version: 0 (expected 1-1)") (by rfl)

/-! ## Backend HTTP client response handling
(`client-core/src/opencode_client/mod.rs`)

The HTTP transport is abstracted to the response the backend returns (status
code and body); the decoding of a successful body into typed values is a
parameter.  The status-handling control flow is translated from the source:
`list_sessions`, `create_session` and `sync_api_key` turn a non-2xx status
into `Err(Server { message: "HTTP <code> - <body>" })`, while
`delete_session` returns `Ok(response.status().is_success())`. -/

/-- An HTTP response from the backend. -/
structure HttpResponse where
  status : Nat
  body : String

/-- `reqwest::StatusCode::is_success()`: 2xx. -/
def statusIsSuccess (status : Nat) : Bool :=
  200 ≤ status && status < 300

/-- `OpencodeClientError`. -/
inductive OpencodeClientError where
  | http (message : String) (location : ErrorLocation)
  | json (message : String) (location : ErrorLocation)
  | urlParse (message : String) (location : ErrorLocation)
  | server (message : String) (location : ErrorLocation)
  deriving DecidableEq

/-- The `Server` error message built for a non-2xx response:
`"HTTP {code} - {body}"`. -/
def serverErrorMessage (resp : HttpResponse) : String :=
  "HTTP " ++ toString resp.status ++ " - " ++ resp.body

/-- `OpencodeClient::list_sessions`, response-handling portion. -/
def list_sessions_handle (decode : String → Except String (List String))
    (resp : HttpResponse) : Except OpencodeClientError (List String) :=
  if !(statusIsSuccess resp.status) then
    .error (.server (serverErrorMessage resp) callerLocation)
  else match decode resp.body with
    | .ok sessions => .ok sessions
    | .error e => .error (.json e callerLocation)

/-- `OpencodeClient::create_session`, response-handling portion. -/
def create_session_handle (decode : String → Except String String)
    (resp : HttpResponse) : Except OpencodeClientError String :=
  if !(statusIsSuccess resp.status) then
    .error (.server (serverErrorMessage resp) callerLocation)
  else match decode resp.body with
    | .ok session => .ok session
    | .error e => .error (.json e callerLocation)

/-- `OpencodeClient::sync_api_key`, response-handling portion. -/
def sync_api_key_handle (resp : HttpResponse) :
    Except OpencodeClientError Unit :=
  if !(statusIsSuccess resp.status) then
    .error (.server (serverErrorMessage resp) callerLocation)
  else .ok ()

/-- `OpencodeClient::delete_session`, response-handling portion:
`Ok(response.status().is_success())` — no status check, no `Server` error. -/
def delete_session_handle (resp : HttpResponse) :
    Except OpencodeClientError Bool :=
  .ok (statusIsSuccess resp.status)

/-- C10: for every backend response to `delete_session`, the operation
returns `Ok(true)` on a 2xx status and `Ok(false)` otherwise — never an
`Err` — while `list_sessions`, `create_session` and `sync_api_key` turn the
same non-2xx response into a `Server` error. -/
theorem c10_delete_session_never_errors (resp : HttpResponse)
    (decodeL : String → Except String (List String))
    (decodeC : String → Except String String) :
    delete_session_handle resp = .ok (statusIsSuccess resp.status) ∧
    (∀ e, delete_session_handle resp ≠ .error e) ∧
    (statusIsSuccess resp.status = false →
      list_sessions_handle decodeL resp =
        .error (.server (serverErrorMessage resp) callerLocation) ∧
      create_session_handle decodeC resp =
        .error (.server (serverErrorMessage resp) callerLocation) ∧
      sync_api_key_handle resp =
        .error (.server (serverErrorMessage resp) callerLocation)) := by
  refine ⟨rfl, fun e h => by simp [delete_session_handle] at h, fun hfail => ?_⟩
  refine ⟨?_, ?_, ?_⟩
  · simp [list_sessions_handle, hfail]
  · simp [create_session_handle, hfail]
  · simp [sync_api_key_handle, hfail]

/-- Witness for C10 at the concrete response `404 - "not found"` (and a
trivial decoder). -/
theorem c10_delete_session_never_errors_witness :
    delete_session_handle ⟨404, "not found"⟩ = .ok false ∧
    list_sessions_handle (fun _ => .ok []) ⟨404, "not found"⟩ =
      .error (.server "HTTP 404 - not found" callerLocation) := by
  have h := c10_delete_session_never_errors ⟨404, "not found"⟩
    (fun _ => .ok []) (fun _ => .ok "")
  have hfail : statusIsSuccess 404 = false := by decide
  constructor
  · have h1 := h.1
    rw [h1]
    rfl
  · exact (h.2.2 hfail).1

/-! ## IPC server (`client-core/src/ipc/server.rs`, `ipc/state.rs`,
`ipc/connection_state.rs`)

`handle_connection` is modelled as a function of the connection's incoming
frame sequence.  A binary frame carries the result of the protobuf decode
(`none` for a decode failure); the network, process and config boundaries
the handlers touch are an explicit environment.  Error-envelope messages
carry the `Display` text of the underlying `IpcError` with the
`[file:line:col]` suffix elided.  Two details of the source matter for the
claims: the per-connection `ConnectionState` gate on the **first** frame,
and the `let ipc_state = IpcState::new();` executed **after** the handshake
(server.rs line 242), which gives every connection its own fresh backend
binding. -/

/-- Client payloads (the `IpcClientMessage` oneof); payloads the dispatch
table routes to its catch-all arm are collapsed into `other`. -/
inductive ClientPayload where
  | authHandshake (token : String)
  | discoverServer
  | spawnServer (port : Option Nat)
  | checkHealth
  | stopServer
  | listSessions
  | createSession (title : Option String)
  | deleteSession (sessionId : String)
  | getConfig
  | updateConfig (configJson : String)
  | other
  deriving DecidableEq

/-- `IpcClientMessage { request_id, payload }` (the payload is optional in
the generated protobuf type). -/
structure IpcClientMessage where
  requestId : Nat
  payload : Option ClientPayload
  deriving DecidableEq

/-- One WebSocket read on a connection. -/
inductive Frame where
  /-- A binary frame, carrying the protobuf decode result
  (`none`: decode failure). -/
  | binary (decoded : Option IpcClientMessage)
  /-- A non-binary (e.g. text) frame. -/
  | nonBinary
  /-- `Err(e)` from the stream. -/
  | readError (msg : String)
  deriving DecidableEq

/-- `IpcErrorCode` (the codes the server actually sends). -/
inductive IpcErrorCode where
  | authError | invalidMessage | internalError | notImplemented
  deriving DecidableEq

/-- Server reply payloads (the `IpcServerMessage` oneof).  Session values
are abstracted to their serialized identities: the claims never inspect
them. -/
inductive ServerPayload where
  | authHandshakeResponse (success : Bool) (error : Option String)
  | discoverServerResponse (server : Option ServerInfo)
  | spawnServerResponse (server : Option ServerInfo)
  | checkHealthResponse (healthy : Bool)
  | stopServerResponse (success : Bool)
  | sessionList (sessions : List String)
  | sessionInfo (session : String)
  | deleteSessionResponse (success : Bool)
  | getConfigResponse (appConfigJson modelsConfigJson : String)
  | updateConfigResponse (success : Bool) (error : Option String)
  | error (code : IpcErrorCode) (message : String)
  deriving DecidableEq

/-- `IpcServerMessage { request_id, payload }`. -/
structure IpcServerMessage where
  requestId : Nat
  payload : ServerPayload
  deriving DecidableEq

/-- The data held by one `IpcState` (ipc/state.rs): the optional server
descriptor and the optional derived HTTP client (identified by the base URL
it was built from). -/
structure IpcStateData where
  server : Option ServerInfo
  opencodeClient : Option String
  deriving DecidableEq

/-- `IpcState::new()`: both slots empty. -/
def IpcStateData.new : IpcStateData := ⟨none, none⟩

/-- `StateCommand`. -/
inductive StateCommand where
  | setServer (server : ServerInfo)
  | clearServer

/-- One command processed by `state_actor`: `SetServer` overwrites the
descriptor and rebuilds the HTTP client from the new base URL, clearing the
client slot when construction fails; `ClearServer` nulls both slots. -/
def state_actor_step (clientNewOk : String → Bool) (_st : IpcStateData) :
    StateCommand → IpcStateData
  | .setServer d =>
      ⟨some d, if clientNewOk d.base_url then some d.base_url else none⟩
  | .clearServer => ⟨none, none⟩

/-- The IO boundary of the connection handlers. -/
structure IpcEnv where
  /-- `process::discover()`. -/
  discoverResult : Except String (Option ServerInfo)
  /-- `spawn::spawn_and_wait()`. -/
  spawnResult : Except String ServerInfo
  /-- `process::check_health(base_url)`. -/
  healthy : String → Bool
  /-- `process::stop_pid(pid)`. -/
  stopResult : Nat → Bool
  /-- `OpencodeClient::new(base_url)` succeeds. -/
  clientNewOk : String → Bool
  /-- `client.list_sessions()`, keyed by the client's base URL. -/
  listSessions : String → Except String (List String)
  /-- `client.create_session(title)`. -/
  createSession : String → Option String → Except String String
  /-- `client.delete_session(session_id)`. -/
  deleteSession : String → String → Except String Bool
  /-- `serde_json::to_string` of the current app config. -/
  appConfigJson : String
  /-- `serde_json::to_string` of the current models config. -/
  modelsConfigJson : String
  /-- `serde_json::from_str::<AppConfig>` on an UpdateConfig body. -/
  parseConfig : String → Except String AppConfig

/-- `Display` text of `IpcError::Io` (location suffix elided). -/
def ipcIoErrorText (message : String) : String := "IO Error: " ++ message

/-- `handle_message` and the handlers it dispatches to, translated from the
source.  A handler returns the connection's state afterwards and the reply
it wrote; `Except.error` is a handler `Err(IpcError)`, which the message
loop converts into an `Error{InternalError}` envelope. -/
def handle_message (env : IpcEnv) (st : IpcStateData) (requestId : Nat) :
    ClientPayload → Except String (IpcStateData × IpcServerMessage)
  | .discoverServer =>
      match env.discoverResult with
      | .error e => .error (ipcIoErrorText ("Discovery failed: " ++ e))
      | .ok none => .ok (st, ⟨requestId, .discoverServerResponse none⟩)
      | .ok (some d) =>
          .ok (state_actor_step env.clientNewOk st (.setServer d),
            ⟨requestId, .discoverServerResponse (some d)⟩)
  | .spawnServer _ =>
      match env.spawnResult with
      | .error e => .error (ipcIoErrorText ("Spawn failed: " ++ e))
      | .ok d =>
          .ok (state_actor_step env.clientNewOk st (.setServer d),
            ⟨requestId, .spawnServerResponse (some d)⟩)
  | .checkHealth =>
      match st.server with
      | none => .error (ipcIoErrorText "No server connected")
      | some d =>
          .ok (st, ⟨requestId, .checkHealthResponse (env.healthy d.base_url)⟩)
  | .stopServer =>
      match st.server with
      | none => .error (ipcIoErrorText "No server connected")
      | some d =>
          let success := env.stopResult d.pid
          let st' := if success
            then state_actor_step env.clientNewOk st .clearServer else st
          .ok (st', ⟨requestId, .stopServerResponse success⟩)
  | .listSessions =>
      match st.opencodeClient with
      | none => .error (ipcIoErrorText "No OpenCode server connected")
      | some baseUrl =>
          match env.listSessions baseUrl with
          | .error e =>
              .error (ipcIoErrorText ("Failed to list sessions: " ++ e))
          | .ok sessions => .ok (st, ⟨requestId, .sessionList sessions⟩)
  | .createSession title =>
      match st.opencodeClient with
      | none => .error (ipcIoErrorText "No OpenCode server connected")
      | some baseUrl =>
          match env.createSession baseUrl title with
          | .error e =>
              .error (ipcIoErrorText ("Failed to create session: " ++ e))
          | .ok session => .ok (st, ⟨requestId, .sessionInfo session⟩)
  | .deleteSession sessionId =>
      match st.opencodeClient with
      | none => .error (ipcIoErrorText "No OpenCode server connected")
      | some baseUrl =>
          match env.deleteSession baseUrl sessionId with
          | .error e =>
              .error (ipcIoErrorText ("Failed to delete session: " ++ e))
          | .ok success =>
              .ok (st, ⟨requestId, .deleteSessionResponse success⟩)
  | .getConfig =>
      .ok (st, ⟨requestId,
        .getConfigResponse env.appConfigJson env.modelsConfigJson⟩)
  | .updateConfig configJson =>
      match env.parseConfig configJson with
      | .error e =>
          .ok (st, ⟨requestId,
            .updateConfigResponse false (some ("Invalid config JSON: " ++ e))⟩)
      | .ok _ =>
          .ok (st, ⟨requestId, .updateConfigResponse true none⟩)
  | .authHandshake _ =>
      .ok (st, ⟨requestId, .error .authError "Auth handshake already completed"⟩)
  | .other =>
      .ok (st, ⟨requestId, .error .notImplemented "Operation not yet implemented"⟩)

/-- The authenticated message loop of `handle_connection`: per frame, decode
failures reply `Error{InvalidMessage, request_id = 0}`; a missing payload
replies `Error{InvalidMessage}`; handler errors reply
`Error{InternalError}`; non-binary frames are ignored; a read error ends
the loop. -/
def message_loop (env : IpcEnv) : IpcStateData → List Frame →
    List IpcServerMessage
  | _, [] => []
  | st, .binary none :: rest =>
      ⟨0, .error .invalidMessage "Invalid protobuf message"⟩ ::
        message_loop env st rest
  | st, .binary (some msg) :: rest =>
      match msg.payload with
      | none =>
          ⟨msg.requestId, .error .invalidMessage "No payload in message"⟩ ::
            message_loop env st rest
      | some p =>
          match handle_message env st msg.requestId p with
          | .ok (st', resp) => resp :: message_loop env st' rest
          | .error e =>
              ⟨msg.requestId, .error .internalError e⟩ ::
                message_loop env st rest
  | st, .nonBinary :: rest => message_loop env st rest
  | _, .readError _ :: _ => []

/-- Result of one `handle_connection` run: the replies written, and whether
the authenticated message loop was entered. -/
structure ConnResult where
  responses : List IpcServerMessage
  enteredLoop : Bool
  deriving DecidableEq

/-- `handle_connection` after WebSocket upgrade on a loopback peer: the
first frame must be a binary, decodable `AuthHandshake` with the expected
token (`ConnectionState::validate_token`); only then is the per-connection
`IpcState::new()` created and the message loop entered.  Every other first
frame returns without entering the loop — a wrong token after one failure
reply, everything else silently. -/
def handle_connection (env : IpcEnv) (authToken : String) :
    List Frame → ConnResult
  | [] => ⟨[], false⟩
  | .binary (some msg) :: rest =>
      match msg.payload with
      | some (.authHandshake token) =>
          if token = authToken then
            ⟨⟨1, .authHandshakeResponse true none⟩ ::
              message_loop env IpcStateData.new rest, true⟩
          else
            ⟨[⟨1, .authHandshakeResponse false
              (some "Invalid authentication token")⟩], false⟩
      | _ => ⟨[], false⟩
  | .binary none :: _ => ⟨[], false⟩
  | .nonBinary :: _ => ⟨[], false⟩
  | .readError _ :: _ => ⟨[], false⟩

/-- The first frame is a binary frame carrying a decodable `AuthHandshake`
whose token equals the expected token. -/
def firstFrameIsValidAuth (authToken : String) : List Frame → Bool
  | .binary (some msg) :: _ =>
      match msg.payload with
      | some (.authHandshake token) => token == authToken
      | _ => false
  | _ => false

/-- C7: for every connection whose first received frame is not a binary
frame carrying a decodable `AuthHandshake` with the expected token, the
handler returns without entering the authenticated message loop, and the
only reply it can have written is the auth-failure handshake response — so
no subsequent request ever yields a non-`Error` (indeed, any) response. -/
theorem c7_auth_gate (env : IpcEnv) (authToken : String) (frames : List Frame)
    (h : firstFrameIsValidAuth authToken frames = false) :
    (handle_connection env authToken frames).enteredLoop = false ∧
    ∀ m ∈ (handle_connection env authToken frames).responses,
      m = ⟨1, .authHandshakeResponse false
        (some "Invalid authentication token")⟩ := by
  match frames with
  | [] => exact ⟨rfl, by intro m hm; simp [handle_connection] at hm⟩
  | .binary none :: rest =>
      exact ⟨rfl, by intro m hm; simp [handle_connection] at hm⟩
  | .nonBinary :: rest =>
      exact ⟨rfl, by intro m hm; simp [handle_connection] at hm⟩
  | .readError e :: rest =>
      exact ⟨rfl, by intro m hm; simp [handle_connection] at hm⟩
  | .binary (some msg) :: rest =>
      match hp : msg.payload with
      | some (.authHandshake token) =>
          have hne : ¬ token = authToken := by
            simp [firstFrameIsValidAuth, hp] at h
            exact h
          constructor
          · simp [handle_connection, hp, hne]
          · intro m hm
            simp [handle_connection, hp, hne] at hm
            simp [hm]
      | some .discoverServer =>
          exact ⟨by simp [handle_connection, hp],
            by intro m hm; simp [handle_connection, hp] at hm⟩
      | some (.spawnServer p) =>
          exact ⟨by simp [handle_connection, hp],
            by intro m hm; simp [handle_connection, hp] at hm⟩
      | some .checkHealth =>
          exact ⟨by simp [handle_connection, hp],
            by intro m hm; simp [handle_connection, hp] at hm⟩
      | some .stopServer =>
          exact ⟨by simp [handle_connection, hp],
            by intro m hm; simp [handle_connection, hp] at hm⟩
      | some .listSessions =>
          exact ⟨by simp [handle_connection, hp],
            by intro m hm; simp [handle_connection, hp] at hm⟩
      | some (.createSession t) =>
          exact ⟨by simp [handle_connection, hp],
            by intro m hm; simp [handle_connection, hp] at hm⟩
      | some (.deleteSession s) =>
          exact ⟨by simp [handle_connection, hp],
            by intro m hm; simp [handle_connection, hp] at hm⟩
      | some .getConfig =>
          exact ⟨by simp [handle_connection, hp],
            by intro m hm; simp [handle_connection, hp] at hm⟩
      | some (.updateConfig c) =>
          exact ⟨by simp [handle_connection, hp],
            by intro m hm; simp [handle_connection, hp] at hm⟩
      | some .other =>
          exact ⟨by simp [handle_connection, hp],
            by intro m hm; simp [handle_connection, hp] at hm⟩
      | none =>
          exact ⟨by simp [handle_connection, hp],
            by intro m hm; simp [handle_connection, hp] at hm⟩

/-- A neutral concrete environment for witnesses. -/
def quietEnv : IpcEnv :=
  { discoverResult := .ok none
  , spawnResult := .error "spawn disabled"
  , healthy := fun _ => false
  , stopResult := fun _ => false
  , clientNewOk := fun _ => true
  , listSessions := fun _ => .ok []
  , createSession := fun _ _ => .ok "session"
  , deleteSession := fun _ _ => .ok true
  , appConfigJson := "{}"
  , modelsConfigJson := "{}"
  , parseConfig := fun _ => .error "invalid" }

/-- Witness for C7: a connection whose first frame is a `ListSessions`
request is closed with no response written. -/
theorem c7_auth_gate_witness :
    (handle_connection quietEnv "test-token-12345"
      [.binary (some ⟨2, some .listSessions⟩)]).enteredLoop = false ∧
    (handle_connection quietEnv "test-token-12345"
      [.binary (some ⟨2, some .listSessions⟩)]).responses = [] := by
  have h := c7_auth_gate quietEnv "test-token-12345"
    [.binary (some ⟨2, some .listSessions⟩)] (by decide)
  refine ⟨h.1, ?_⟩
  rfl

/-- Shorthand for an auth-handshake first frame. -/
def authFrame (token : String) : Frame :=
  .binary (some ⟨1, some (.authHandshake token)⟩)

/-- Shorthand for a post-auth request frame. -/
def payloadFrame (requestId : Nat) (p : ClientPayload) : Frame :=
  .binary (some ⟨requestId, some p⟩)

/-- C2 counterexample descriptor. -/
def c2Server : ServerInfo :=
  ⟨42, 4096, "http://127.0.0.1:4096", "opencode", "opencode serve", true⟩

/-- C2 counterexample environment: discovery finds `c2Server`; health checks
succeed. -/
def c2Env : IpcEnv :=
  { discoverResult := .ok (some c2Server)
  , spawnResult := .error "spawn disabled"
  , healthy := fun _ => true
  , stopResult := fun _ => true
  , clientNewOk := fun _ => true
  , listSessions := fun _ => .ok []
  , createSession := fun _ _ => .ok "session"
  , deleteSession := fun _ _ => .ok true
  , appConfigJson := "{}"
  , modelsConfigJson := "{}"
  , parseConfig := fun _ => .error "invalid" }

/-- C2: the claim as stated is false.  Connection A authenticates and runs
`DiscoverServer`, whose handler installs `c2Server` via `SetServer`.
Connection B — authenticated against the same server with the same
environment — then runs `CheckHealth`; because `handle_connection` creates
a fresh `IpcState::new()` per connection (server.rs line 242), B's
`get_server` observes no descriptor and B receives
`Error{InternalError, "No server connected"}` instead of the
`CheckHealthResponse{healthy: true}` the claim's process-wide binding would
produce. -/
theorem c2_per_connection_counterexample :
    (handle_connection c2Env "tok"
      [authFrame "tok", payloadFrame 2 .discoverServer]).responses =
      [⟨1, .authHandshakeResponse true none⟩,
       ⟨2, .discoverServerResponse (some c2Server)⟩] ∧
    (handle_connection c2Env "tok"
      [authFrame "tok", payloadFrame 2 .checkHealth]).responses =
      [⟨1, .authHandshakeResponse true none⟩,
       ⟨2, .error .internalError (ipcIoErrorText "No server connected")⟩] ∧
    (handle_connection c2Env "tok"
      [authFrame "tok", payloadFrame 2 .checkHealth]).responses ≠
      [⟨1, .authHandshakeResponse true none⟩,
       ⟨2, .checkHealthResponse true⟩] := by
  refine ⟨rfl, rfl, by decide⟩

/-- C2 (amended): the current-backend binding is per-connection, not
process-wide.  Within one connection, a descriptor installed by the
`DiscoverServer` handler is the descriptor observed by a later `CheckHealth`
handler on the same connection; and every authenticated connection enters
its message loop with the fresh empty `IpcState::new()`, so installs
performed on other connections are never observed. -/
theorem c2_binding_per_connection (env : IpcEnv) (token : String)
    (d : ServerInfo) (h : env.discoverResult = .ok (some d)) :
    handle_connection env token
      [authFrame token, payloadFrame 2 .discoverServer,
       payloadFrame 3 .checkHealth] =
      ⟨[⟨1, .authHandshakeResponse true none⟩,
        ⟨2, .discoverServerResponse (some d)⟩,
        ⟨3, .checkHealthResponse (env.healthy d.base_url)⟩], true⟩ ∧
    (∀ frames, handle_connection env token (authFrame token :: frames) =
      ⟨⟨1, .authHandshakeResponse true none⟩ ::
        message_loop env IpcStateData.new frames, true⟩) := by
  constructor
  · simp [handle_connection, authFrame, payloadFrame, message_loop,
      handle_message, h, state_actor_step, IpcStateData.new]
  · intro frames
    simp [handle_connection, authFrame]

/-- Witness for the amended C2 at the concrete environment `c2Env`. -/
theorem c2_binding_per_connection_witness :
    handle_connection c2Env "tok"
      [authFrame "tok", payloadFrame 2 .discoverServer,
       payloadFrame 3 .checkHealth] =
      ⟨[⟨1, .authHandshakeResponse true none⟩,
        ⟨2, .discoverServerResponse (some c2Server)⟩,
        ⟨3, .checkHealthResponse true⟩], true⟩ :=
  (c2_binding_per_connection c2Env "tok" c2Server rfl).1

end OpencodeTauri
